import Mathlib

/-!
Verification of the flyweight / maze-block programs
(src/flyweight/flyweight.cpp and src/maze/block.cpp).

The embedding mirrors the C++ source:
- `Side` is the 9-value direction enum.
- `std::map` values are modelled as association lists; `operator[]` on a
  `std::map` default-inserts a value-initialized entry when the key is
  absent (empty string for `std::string`, the zero enumerator for `Side`),
  so lookups are modelled with an explicit default, and `Element.repr`
  returns the (possibly grown) map alongside the looked-up string.
- `Block` holds a 3x3 grid of containers (here a function on indices; the
  C++ array is only ever accessed at indices 0..2) together with the
  `pos_x` and `pos_y` tag fields (uninitialized in C++ until
  `setPosition`; initialized to 0 here, `render` never reads them).
- `render` writes, for each cell, its repr followed by one space, then a
  newline after each row; it is modelled as the list of the three emitted
  row strings (each therefore carries a trailing space).
-/

namespace DesignPatterns

/-- The `Side` enum (enum class in block.cpp, plain enum in flyweight.cpp);
`NORTH_WEST` is the zero enumerator. -/
inductive Side where
  | NORTH_WEST
  | NORTH
  | NORTH_EAST
  | WEST
  | CENTER
  | EAST
  | SOUTH_WEST
  | SOUTH
  | SOUTH_EAST
  deriving DecidableEq, Fintype

/-- Lookup in an association list, as `std::map::find`: the first entry
with the given key, if any. -/
def assoc_find {α β : Type} [DecidableEq α] : List (α × β) → α → Option β
  | [], _ => none
  | (k', v) :: rest, k => if k = k' then some v else assoc_find rest k

/-- Lookup with a default, as reading `std::map::operator[]`: the stored
value when the key is present, else the value-initialized default. -/
def assoc_get {α β : Type} [DecidableEq α] (m : List (α × β)) (k : α) (d : β) : β :=
  match assoc_find m k with
  | some v => v
  | none => d

/-- `side_map` of block.cpp: Side to (row, col), entries in source order. -/
def side_map : List (Side × (Nat × Nat)) :=
  [ (Side.NORTH, (0, 1)),
    (Side.NORTH_EAST, (0, 2)),
    (Side.EAST, (1, 2)),
    (Side.CENTER, (1, 1)),
    (Side.SOUTH_EAST, (2, 2)),
    (Side.SOUTH, (2, 1)),
    (Side.SOUTH_WEST, (2, 0)),
    (Side.WEST, (1, 0)),
    (Side.NORTH_WEST, (0, 0)) ]

/-- `reverse_side_map` of block.cpp: (row, col) to Side. -/
def reverse_side_map : List ((Nat × Nat) × Side) :=
  [ ((0, 1), Side.NORTH),
    ((0, 2), Side.NORTH_EAST),
    ((1, 1), Side.CENTER),
    ((1, 2), Side.EAST),
    ((2, 2), Side.SOUTH_EAST),
    ((2, 1), Side.SOUTH),
    ((2, 0), Side.SOUTH_WEST),
    ((1, 0), Side.WEST),
    ((0, 0), Side.NORTH_WEST) ]

/-- `index_to_side`: `reverse_side_map[{x, y}]`; an absent key
value-initializes `Side`, i.e. the zero enumerator `NORTH_WEST`. -/
def index_to_side (x y : Nat) : Side :=
  assoc_get reverse_side_map (x, y) Side.NORTH_WEST

/-- `side_to_index`: `side_map[s]`; an absent key value-initializes the
array, i.e. `{0, 0}` (all 9 sides are present, so this never happens). -/
def side_to_index (s : Side) : Nat × Nat :=
  assoc_get side_map s (0, 0)

/-- `Element`: holds the `representations` map (Side to glyph string). -/
structure Element where
  representations : List (Side × String)
  deriving DecidableEq

/-- `Element::repr(key)`: `return representations[key];`. `operator[]` on
a non-const `std::map` inserts a default-constructed (empty) string when
the key is absent and returns a reference to it, so the call both yields
a string and possibly grows the map; the pair returns both. -/
def Element.repr (e : Element) (key : Side) : String × Element :=
  match assoc_find e.representations key with
  | some v => (v, e)
  | none => ("", { representations := e.representations ++ [(key, "")] })

/-- `NULL_REPRESENTATIONS` of block.cpp: 8 entries, all empty; no entry
for `CENTER`. -/
def NULL_REPRESENTATIONS : List (Side × String) :=
  [ (Side.NORTH, ""),
    (Side.NORTH_EAST, ""),
    (Side.EAST, ""),
    (Side.SOUTH_EAST, ""),
    (Side.SOUTH, ""),
    (Side.SOUTH_WEST, ""),
    (Side.WEST, ""),
    (Side.NORTH_WEST, "") ]

def NULL_ELEMENT : Element := { representations := NULL_REPRESENTATIONS }

/-- `WALL_REPRESENTATIONS` of block.cpp: filled glyph on the 8 compass
sides, blank at `CENTER`. -/
def WALL_REPRESENTATIONS : List (Side × String) :=
  [ (Side.NORTH, "■"),
    (Side.NORTH_EAST, "■"),
    (Side.EAST, "■"),
    (Side.SOUTH_EAST, "■"),
    (Side.SOUTH, "■"),
    (Side.SOUTH_WEST, "■"),
    (Side.WEST, "■"),
    (Side.NORTH_WEST, "■"),
    (Side.CENTER, " ") ]

def WALL_ELEMENT : Element := { representations := WALL_REPRESENTATIONS }

/-- `FLOOR_REPRESENTATIONS` of block.cpp: blank glyph on all 9 sides. -/
def FLOOR_REPRESENTATIONS : List (Side × String) :=
  [ (Side.NORTH, " "),
    (Side.NORTH_EAST, " "),
    (Side.EAST, " "),
    (Side.SOUTH_EAST, " "),
    (Side.SOUTH, " "),
    (Side.SOUTH_WEST, " "),
    (Side.WEST, " "),
    (Side.NORTH_WEST, " "),
    (Side.CENTER, " ") ]

def FLOOR_ELEMENT : Element := { representations := FLOOR_REPRESENTATIONS }

/-- `ElementContainer`: a `Side` state plus the proxied element. -/
structure ElementContainer where
  state : Side
  el_proxy : Element
  deriving DecidableEq

/-- `ElementContainer::getSide()`. -/
def ElementContainer.getSide (c : ElementContainer) : Side :=
  c.state

/-- `ElementContainer::repr()`: `return el_proxy->repr(state);` — the
string value of the element lookup. -/
def ElementContainer.repr (c : ElementContainer) : String :=
  (c.el_proxy.repr c.state).fst

/-- `NullContainer(side)`: container bound to `NULL_ELEMENT`. -/
def NullContainer (side : Side) : ElementContainer :=
  { state := side, el_proxy := NULL_ELEMENT }

/-- `WallContainer(side)`: container bound to `WALL_ELEMENT`. -/
def WallContainer (side : Side) : ElementContainer :=
  { state := side, el_proxy := WALL_ELEMENT }

/-- `FloorContainer(side)`: container bound to `FLOOR_ELEMENT`. -/
def FloorContainer (side : Side) : ElementContainer :=
  { state := side, el_proxy := FLOOR_ELEMENT }

/-- `Block`: the 3x3 grid (the C++ array is only accessed at indices
0..2) plus the position tag fields. -/
structure Block where
  grid : Nat → Nat → ElementContainer
  pos_x : Int
  pos_y : Int

/-- The default constructor `Block()`: every cell (i, j) gets a
`NullContainer(index_to_side(i, j))`. `pos_x`/`pos_y` are uninitialized
in C++ and never read before `setPosition`; 0 here. -/
def Block.init : Block :=
  { grid := fun i j => NullContainer (index_to_side i j),
    pos_x := 0,
    pos_y := 0 }

/-- `Block::getElement(x, y)`. -/
def Block.getElement (b : Block) (x y : Nat) : ElementContainer :=
  b.grid x y

/-- `Block::setContainer(el)`: computes (x, y) from the container's own
stored side via `side_to_index`, deletes the occupant, installs `el`. -/
def Block.setContainer (b : Block) (el : ElementContainer) : Block :=
  { b with
    grid := fun i j => if (i, j) = side_to_index el.getSide then el else b.grid i j }

/-- One emitted row of `Block::render()`: each cell's repr followed by a
single space (including after the last cell). -/
def Block.renderRow (b : Block) (i : Nat) : String :=
  (b.grid i 0).repr ++ " " ++ (b.grid i 1).repr ++ " " ++ (b.grid i 2).repr ++ " "

/-- `Block::render()`: the three rows printed, in order (each row is
terminated by `std::endl`, modelled as the list separation). -/
def Block.render (b : Block) : List String :=
  [b.renderRow 0, b.renderRow 1, b.renderRow 2]

/-- `Block::setPosition(x, y)`. -/
def Block.setPosition (b : Block) (x y : Int) : Block :=
  { b with pos_x := x, pos_y := y }

/-- `Block::getPosition()`. -/
def Block.getPosition (b : Block) : Int × Int :=
  (b.pos_x, b.pos_y)

/-- Applying a sequence of `setContainer` calls in order. -/
def Block.applyAll (b : Block) (cs : List ElementContainer) : Block :=
  cs.foldl Block.setContainer b

/-- The block assembled by `main` of block.cpp: walls on the 8 perimeter
sides, a floor at the center, in source order. -/
def demoBlock : Block :=
  Block.init.applyAll
    [ WallContainer Side.NORTH_WEST,
      WallContainer Side.NORTH,
      WallContainer Side.NORTH_EAST,
      WallContainer Side.WEST,
      FloorContainer Side.CENTER,
      WallContainer Side.EAST,
      WallContainer Side.SOUTH_WEST,
      WallContainer Side.SOUTH,
      WallContainer Side.SOUTH_EAST ]

/-! ### Helper lemmas -/

/-- A key found in `l` is found, with the same value, in `l ++ m`. -/
lemma assoc_find_append_some {α β : Type} [DecidableEq α] {l : List (α × β)}
    (m : List (α × β)) {k : α} {v : β} (h : assoc_find l k = some v) :
    assoc_find (l ++ m) k = some v := by
  induction l with
  | nil => simp [assoc_find] at h
  | cons p t ih =>
    obtain ⟨a, b⟩ := p
    by_cases hk : k = a
    · simp [assoc_find, hk] at h ⊢
      exact h
    · simp [assoc_find, hk] at h ⊢
      exact ih h

/-- A key absent from `l` is looked up in `m` by `assoc_find (l ++ m)`. -/
lemma assoc_find_append_none {α β : Type} [DecidableEq α] {l : List (α × β)}
    (m : List (α × β)) {k : α} (h : assoc_find l k = none) :
    assoc_find (l ++ m) k = assoc_find m k := by
  induction l with
  | nil => simp
  | cons p t ih =>
    obtain ⟨a, b⟩ := p
    by_cases hk : k = a
    · simp [assoc_find, hk] at h
    · simp [assoc_find, hk] at h ⊢
      exact ih h

/-- The string returned by `Element.repr` is the map lookup with the
empty default, whether or not the key is present. -/
lemma Element.repr_fst (e : Element) (k : Side) :
    (e.repr k).fst = assoc_get e.representations k "" := by
  unfold Element.repr assoc_get
  cases hf : assoc_find e.representations k <;> simp

/-- The map after `Element.repr`: unchanged when the key was present,
grown by a default entry when it was absent. -/
lemma Element.repr_snd (e : Element) (k : Side) :
    (e.repr k).snd.representations =
      match assoc_find e.representations k with
      | some _ => e.representations
      | none => e.representations ++ [(k, "")] := by
  unfold Element.repr
  cases hf : assoc_find e.representations k <;> simp

/-- `setContainer` keeps a cell placement-consistent: the new occupant of
a changed cell carries exactly the side that maps there. -/
lemma setContainer_preserves_placement {b : Block} {r c : Nat}
    (h : side_to_index ((b.grid r c).getSide) = (r, c)) (el : ElementContainer) :
    side_to_index (((b.setContainer el).grid r c).getSide) = (r, c) := by
  have hg : (b.setContainer el).grid r c =
      if (r, c) = side_to_index el.getSide then el else b.grid r c := rfl
  rw [hg]
  by_cases he : (r, c) = side_to_index el.getSide
  · rw [if_pos he]
    exact he.symm
  · rw [if_neg he]
    exact h

/-- The freshly constructed block is placement-consistent on every cell
of the 3x3 grid. -/
lemma init_placement (r c : Nat) (hr : r < 3) (hc : c < 3) :
    side_to_index ((Block.init.grid r c).getSide) = (r, c) := by
  interval_cases r <;> interval_cases c <;> decide

/-! ### Claim theorems -/

/-- Claim C1, counterexample: the demo block of `main` (walls on the 8
perimeter sides, floor at center) does not render the rows exactly as
"■ ■ ■" / "■   ■" / "■ ■ ■": each emitted row ends with a trailing
space, since `render` prints a space after every cell, the last
included. -/
theorem demo_render_ne_spec_rows :
    demoBlock.render ≠ ["■ ■ ■", "■   ■", "■ ■ ■"] := by decide

/-- Claim C1, amended: the demo block renders exactly three rows,
"■ ■ ■ ", "■   ■ " (blank at center), "■ ■ ■ " — interior cells
separated by single spaces, each row carrying one trailing space. -/
theorem demo_render_rows :
    demoBlock.render = ["■ ■ ■ ", "■   ■ ", "■ ■ ■ "] := by decide

/-- Claim C2: every cell of a freshly constructed block renders as the
empty string, the CENTER cell (1,1) included, although CENTER has no
entry in the null element's mapping. -/
theorem init_block_renders_blank :
    ∀ r c : Fin 3, (Block.init.grid r.val c.val).repr = "" := by decide

/-- Claim C3: `setContainer` with a NORTH-sided container replaces
exactly cell (0,1); in general it changes only the cell at
`side_to_index` of the container's stored side and leaves every other
cell unchanged (it is total: no error path). -/
theorem setContainer_frame (b : Block) (el : ElementContainer) :
    (el.state = Side.NORTH → (b.setContainer el).grid 0 1 = el) ∧
    (b.setContainer el).grid (side_to_index el.getSide).1 (side_to_index el.getSide).2 = el ∧
    ∀ r c : Nat, (r, c) ≠ side_to_index el.getSide →
      (b.setContainer el).grid r c = b.grid r c := by
  refine ⟨?_, ?_, ?_⟩
  · intro h
    have hs : side_to_index el.getSide = (0, 1) := by
      rw [ElementContainer.getSide, h]
      decide
    simp [Block.setContainer, hs]
  · simp [Block.setContainer]
  · intro r c h
    simp [Block.setContainer, h]

/-- Claim C3, witness: installing `WallContainer NORTH` into a fresh
block puts it at (0,1) and leaves cell (2,2) as it was. -/
theorem setContainer_frame_witness :
    (WallContainer Side.NORTH).state = Side.NORTH ∧
    ((2 : Nat), (2 : Nat)) ≠ side_to_index (WallContainer Side.NORTH).getSide ∧
    (Block.init.setContainer (WallContainer Side.NORTH)).grid 0 1 = WallContainer Side.NORTH ∧
    (Block.init.setContainer (WallContainer Side.NORTH)).grid 2 2 = Block.init.grid 2 2 := by
  have h := setContainer_frame Block.init (WallContainer Side.NORTH)
  exact ⟨rfl, by decide, h.1 rfl, h.2.2 2 2 (by decide)⟩

/-- Claim C4: the side/coordinate maps form a bijection between the 9
sides and the 9 cells: both round trips are the identity. -/
theorem side_index_roundtrip :
    (∀ s : Side, index_to_side (side_to_index s).1 (side_to_index s).2 = s) ∧
    (∀ r c : Fin 3, side_to_index (index_to_side r.val c.val) = (r.val, c.val)) := by
  constructor
  · decide
  · decide

/-- Claim C5: looking up a key absent from an element's mapping returns
the empty string (the default-constructed `std::string`) rather than
failing. -/
theorem repr_absent_key_default (e : Element) (k : Side)
    (h : assoc_find e.representations k = none) :
    (e.repr k).fst = "" := by
  simp [Element.repr, h]

/-- Claim C5, witness: the null element has no CENTER entry, and looking
CENTER up returns the empty string. -/
theorem repr_absent_key_default_witness :
    assoc_find NULL_ELEMENT.representations Side.CENTER = none ∧
    (NULL_ELEMENT.repr Side.CENTER).fst = "" :=
  ⟨by decide, repr_absent_key_default NULL_ELEMENT Side.CENTER (by decide)⟩

/-- Claim C6: the wall element's lookup returns the filled glyph on all
sides except CENTER, where it returns the blank glyph. -/
theorem wall_element_repr (s : Side) :
    (WALL_ELEMENT.repr s).fst = if s = Side.CENTER then " " else "■" := by
  cases s <;> rfl

/-- Claim C7: the floor element's lookup returns the blank glyph on all
9 sides. -/
theorem floor_element_repr (s : Side) :
    (FLOOR_ELEMENT.repr s).fst = " " := by
  cases s <;> rfl

/-- Claim C8, counterexample: `repr` is not mutation-free — looking up
CENTER on the null element grows its mapping (C++ `operator[]` inserts
a default entry for an absent key), so the element afterwards differs
from the element at construction time. -/
theorem repr_mutates_null_element :
    (NULL_ELEMENT.repr Side.CENTER).snd ≠ NULL_ELEMENT := by decide

/-- Claim C8, amended: `repr` never changes any observable
representation — after any lookup, every subsequent lookup returns
exactly the string it returned before (the mapping itself changes only
by inserting the looked-up key with the empty default when absent). -/
theorem repr_preserves_observations (e : Element) (k k' : Side) :
    (((e.repr k).snd).repr k').fst = (e.repr k').fst := by
  rw [Element.repr_fst, Element.repr_fst, Element.repr_snd]
  cases hf : assoc_find e.representations k with
  | some v => rfl
  | none =>
    unfold assoc_get
    cases hf' : assoc_find e.representations k' with
    | some v => rw [assoc_find_append_some _ hf']
    | none =>
      rw [assoc_find_append_none _ hf']
      by_cases hk : k' = k
      · simp [assoc_find, hk]
      · simp [assoc_find, hk]

/-- Claim C9: `setPosition` does not affect rendering, and
`getPosition` afterwards returns exactly the pair that was set. -/
theorem setPosition_no_render_effect (b : Block) (x y : Int) :
    (b.setPosition x y).render = b.render ∧ (b.setPosition x y).getPosition = (x, y) :=
  ⟨rfl, rfl⟩

/-- Claim C10: every block reachable from the default constructor by a
sequence of `setContainer` calls is placement-consistent: each cell of
the 3x3 grid holds a container whose stored side maps back to that
cell's coordinates. -/
theorem applyAll_placement_invariant (cs : List ElementContainer) (r c : Nat)
    (hr : r < 3) (hc : c < 3) :
    side_to_index (((Block.init.applyAll cs).grid r c).getSide) = (r, c) := by
  have main : ∀ (l : List ElementContainer) (b : Block),
      (∀ i j : Nat, i < 3 → j < 3 → side_to_index ((b.grid i j).getSide) = (i, j)) →
      ∀ i j : Nat, i < 3 → j < 3 →
        side_to_index (((b.applyAll l).grid i j).getSide) = (i, j) := by
    intro l
    induction l with
    | nil => intro b hb; exact hb
    | cons el t ih =>
      intro b hb
      exact ih _ (fun i j hi hj => setContainer_preserves_placement (hb i j hi hj) el)
  exact main cs Block.init (fun i j hi hj => init_placement i j hi hj) r c hr hc

/-- Claim C10, witness: after installing a NORTH wall into a fresh
block, the cell (0,1) holds a container whose side maps to (0,1). -/
theorem applyAll_placement_invariant_witness :
    (0 : Nat) < 3 ∧ (1 : Nat) < 3 ∧
    side_to_index (((Block.init.applyAll [WallContainer Side.NORTH]).grid 0 1).getSide) = (0, 1) :=
  ⟨by decide, by decide,
    applyAll_placement_invariant [WallContainer Side.NORTH] 0 1 (by decide) (by decide)⟩

end DesignPatterns
